import Mathlib

/-!
Shallow embedding of the MoonForge Android crash-handling engine
(src/Plugins/Android/moonforge_crash_handler.c).

The C file is a signal-based crash capturer: it installs a handler for a
fixed set of signals, saves each previous disposition, and on the first
delivered signal builds a JSON crash report (unwinding the stack with
libunwind, resolving each address with dladdr, serialising with repeated
snprintf calls into fixed buffers), invokes a registered callback, restores
the saved disposition for the delivered signal and re-raises it.

Modelling conventions:
- machine pointers and signal numbers are Nat; ptrdiff_t values are Int;
  size_t subtraction wraps modulo 2 ^ 64 (sizeSub);
- the statics of the C file (previousHandlers, crashCallback,
  isHandlingCrash, isInitialized, javaVM, stackFrames, stackFrameCount,
  crashJsonBuffer) together with the kernel's per-signal disposition table
  form EngineState; each C function becomes a state transformer that also
  returns the list of observable Events (log lines, callback invocations,
  sigaction and raise calls) it performs, in program order;
- snprintf is modelled precisely: a call is a WriteOp recording the
  destination offset, the size_t size argument, and the full formatted
  text; WriteOp.stored lists the bytes the call actually places in memory
  (truncated copy plus the terminating NUL), and the C return value is the
  untruncated length of the formatted text, which is how the C code
  advances its running offset;
- platform primitives are environments: the chain of program counters
  _Unwind_Backtrace would deliver (innermost first), the dladdr lookup
  table, the siginfo contents, the result of each sigaction installation
  and of the alternate-stack malloc.
-/

namespace MoonForge

/-- Linux (Android, generic ABI) signal number of SIGILL. -/
def SIGILL : Nat := 4

/-- Linux signal number of SIGTRAP. -/
def SIGTRAP : Nat := 5

/-- Linux signal number of SIGABRT. -/
def SIGABRT : Nat := 6

/-- Linux signal number of SIGBUS. -/
def SIGBUS : Nat := 7

/-- Linux signal number of SIGFPE. -/
def SIGFPE : Nat := 8

/-- Linux signal number of SIGSEGV. -/
def SIGSEGV : Nat := 11

/-- Linux signal number of SIGPIPE. -/
def SIGPIPE : Nat := 13

/-- The signal set the engine handles, in the source order of
kSignalsToHandle (moonforge_crash_handler.c lines 24-32). -/
def kSignalsToHandle : List Nat :=
  [SIGABRT, SIGBUS, SIGFPE, SIGILL, SIGSEGV, SIGTRAP, SIGPIPE]

/-- Number of handled signals (sizeof computation, line 33). -/
def kNumSignals : Nat := kSignalsToHandle.length

/-- MAX_FRAMES from line 59: capacity of the stackFrames buffer. -/
def MAX_FRAMES : Nat := 128

/-- SIGSTKSZ of Android bionic on the primary 64-bit ABI (arm64): the
fixed size in bytes of the alternate signal stack allocated at
initialization (line 240). -/
def SIGSTKSZ : Nat := 16384

/-- Capacity of the local stackTraceJson buffer (line 167). -/
def STACK_JSON_CAP : Nat := 16384

/-- Capacity of the static crashJsonBuffer (line 51). -/
def CRASH_JSON_CAP : Nat := 32768

/-- Modulus of size_t arithmetic on a 64-bit platform. -/
def SIZE_T_BOUND : Nat := 2 ^ 64

/-- C size_t subtraction a - b, wrapping modulo 2 ^ 64 when b exceeds a
(both operands assumed below the modulus, as everywhere in this model). -/
def sizeSub (a b : Nat) : Nat :=
  if b ≤ a then a - b else a + SIZE_T_BOUND - b

/-- The NUL byte written by snprintf as a string terminator. -/
def nulChar : Char := Char.ofNat 0

/-- A signal disposition as the kernel records it: either this engine's
signalHandler or some other (foreign, default, ignored, ...) disposition,
identified opaquely. -/
inductive Disposition where
  | engineHandler : Disposition
  | other : Nat → Disposition
deriving DecidableEq, Repr

/-- Result record of a successful dladdr call: the containing binary's
path (dli_fname, NULL allowed), the nearest symbol's name (dli_sname,
NULL allowed) and the symbol's start address (dli_saddr, meaningful
together with dli_sname). Strings are byte lists. -/
structure DlInfo where
  dli_fname : Option (List Char)
  dli_sname : Option (List Char)
  dli_saddr : Nat
deriving DecidableEq, Repr

/-- The fields of siginfo_t the handler reads (lines 161 and 189). -/
structure SigInfo where
  si_addr : Nat
  si_code : Int
deriving DecidableEq, Repr

/-- Per-frame symbol resolution result (the local variables symbolName,
moduleName, symbolOffset of lines 126-128). -/
structure ResolvedFrame where
  symbolNm : List Char
  moduleNm : List Char
  symbolOffset : Int
deriving DecidableEq, Repr

/-- Platform environment of one signal delivery: what the unwind and
symbol primitives would answer inside the handler. unwindChain is the
sequence of pc values _Unwind_Backtrace reports, innermost frame first. -/
structure CrashEnv where
  unwindChain : List Nat
  dladdr : Nat → Option DlInfo
  siginfo : Option SigInfo
  threadId : Nat

/-- Platform environment of one initialization: whether sigaction
installation succeeds for each signal, and whether the alternate-stack
malloc succeeds. -/
structure InitEnv where
  installOk : Nat → Bool
  mallocOk : Bool

/-- The engine's process-wide state: the kernel's installed disposition
per signal number, plus every static of the C file. -/
structure EngineState where
  osDisposition : Nat → Disposition
  previousHandlers : Nat → Disposition
  crashCallback : Option Nat
  isHandlingCrash : Bool
  isInitialized : Bool
  javaVM : Option Nat
  altStack : Option Nat
  stackFramesSaved : List Nat
  stackFrameCount : Nat
  crashJsonBuf : List Char

/-- Observable actions of the engine, in program order. -/
inductive Event where
  | logAlreadyInitialized : Event
  | logInstallFailed : Nat → Event
  | logInitialized : Event
  | logShutdown : Event
  | logCaughtSignal : Nat → Event
  | allocAltStack : Nat → Event
  | sigaltstackInstall : Nat → Event
  | callbackInvoked : Nat → List Char → Event
  | sigactionRestore : Nat → Disposition → Event
  | raiseSignal : Nat → Event
deriving DecidableEq, Repr

/-- The fixed sentinel used for unresolved symbol and module names
(lines 126-127). -/
def sentinel : List Char := ['?', '?', '?']

/-- Final path component, as computed by the C code with strrchr:
everything after the last slash, or the whole string when it has no
slash (lines 137-138). -/
def basenameOf (fname : List Char) : List Char :=
  (fname.reverse.takeWhile (fun c => c != '/')).reverse

/-- Per-address symbol resolution, the body of lines 125-140: dladdr
failure leaves both names at the sentinel and the offset at 0; a found
symbol sets the name and offset = address - symbol start; a found binary
path sets the module to its base name. -/
def resolveFrame (dl : Nat → Option DlInfo) (addr : Nat) : ResolvedFrame :=
  match dl addr with
  | none => ⟨sentinel, sentinel, 0⟩
  | some info =>
    let symPart :=
      match info.dli_sname with
      | some sn => (sn, (addr : Int) - (info.dli_saddr : Int))
      | none => (sentinel, (0 : Int))
    let modPart :=
      match info.dli_fname with
      | some fn => basenameOf fn
      | none => sentinel
    ⟨symPart.1, modPart, symPart.2⟩

/-- Decimal rendering of a Nat, as printf %d / %lu produce. -/
def natToDec (n : Nat) : List Char := Nat.toDigits 10 n

/-- Signed decimal rendering of an Int, as printf %td / %d produce. -/
def intToDec (i : Int) : List Char :=
  if i < 0 then '-' :: Nat.toDigits 10 i.natAbs else Nat.toDigits 10 i.toNat

/-- Pointer rendering of bionic printf %p: 0x followed by lowercase hex
digits. -/
def ptrToHex (a : Nat) : List Char := '0' :: 'x' :: Nat.toDigits 16 a

/-- signalName of lines 64-75. -/
def signalName (sig : Nat) : List Char :=
  if sig = SIGABRT then ("SIGABRT").toList
  else if sig = SIGBUS then ("SIGBUS").toList
  else if sig = SIGFPE then ("SIGFPE").toList
  else if sig = SIGILL then ("SIGILL").toList
  else if sig = SIGSEGV then ("SIGSEGV").toList
  else if sig = SIGTRAP then ("SIGTRAP").toList
  else if sig = SIGPIPE then ("SIGPIPE").toList
  else ("UNKNOWN").toList

/-- signalDescription of lines 77-88. -/
def signalDescription (sig : Nat) : List Char :=
  if sig = SIGABRT then ("Abort signal").toList
  else if sig = SIGBUS then ("Bus error (bad memory access)").toList
  else if sig = SIGFPE then ("Floating-point exception").toList
  else if sig = SIGILL then ("Illegal instruction").toList
  else if sig = SIGSEGV then ("Segmentation fault (invalid memory reference)").toList
  else if sig = SIGTRAP then ("Trace/breakpoint trap").toList
  else if sig = SIGPIPE then ("Broken pipe").toList
  else ("Unknown signal").toList

/-- The formatted text of one frame object, the format string of lines
142-144 instantiated: the literal braces of the JSON object are written
with hexadecimal escapes. -/
def frameEntryText (dl : Nat → Option DlInfo) (i : Nat) (addr : Nat) : List Char :=
  let r := resolveFrame dl addr
  ("\x7b\"frame\":").toList ++ natToDec i
    ++ (",\"address\":\"").toList ++ ptrToHex addr
    ++ ("\",\"module\":\"").toList ++ r.moduleNm
    ++ ("\",\"symbol\":\"").toList ++ r.symbolNm
    ++ ("\",\"offset\":\"").toList ++ intToDec r.symbolOffset
    ++ ("\"\x7d").toList

/-- One snprintf call into the stack-trace buffer: destination offset
from the buffer start, the size argument (a size_t value), and the full
formatted text before truncation. The C return value is text.length. -/
structure WriteOp where
  pos : Nat
  size : Nat
  text : List Char
deriving DecidableEq, Repr

/-- Consecutive placement of bytes starting at a position. -/
def placeChars (pos : Nat) : List Char → List (Nat × Char)
  | [] => []
  | c :: cs => (pos, c) :: placeChars (pos + 1) cs

/-- Bytes a snprintf call actually stores: nothing when the size
argument is 0, otherwise at most size - 1 text bytes followed by the
terminating NUL. -/
def WriteOp.stored (w : WriteOp) : List (Nat × Char) :=
  if w.size = 0 then []
  else placeChars w.pos (w.text.take (w.size - 1) ++ [nulChar])

/-- All bytes stored by a sequence of snprintf calls, in program order. -/
def storesOf (ops : List WriteOp) : List (Nat × Char) :=
  ops.foldr (fun w acc => w.stored ++ acc) []

/-- Memory contents after applying stores left to right (later stores
win) over an initial contents function. -/
def applyStores (ws : List (Nat × Char)) (init : Nat → Char) : Nat → Char :=
  ws.foldl (fun f pc => fun n => if n = pc.1 then pc.2 else f n) init

/-- Read a C string: bytes from a start position up to (excluding) the
first NUL, with an explicit fuel bound. -/
def readCString (buf : Nat → Char) : Nat → Nat → List Char
  | _, 0 => []
  | pos, fuel + 1 =>
    if buf pos = nulChar then [] else buf pos :: readCString buf (pos + 1) fuel

/-- The C string left in a buffer of the given capacity by a sequence of
snprintf calls (reading at most capacity bytes from position 0). -/
def bufferCString (cap : Nat) (ops : List WriteOp) : List Char :=
  readCString (applyStores (storesOf ops) (fun _ => nulChar)) 0 cap

/-- The stored bytes that land at or past the buffer capacity: writes
outside the preallocated buffer. -/
def oobStores (cap : Nat) (ops : List WriteOp) : List (Nat × Char) :=
  (storesOf ops).filter (fun pc => decide (cap ≤ pc.1))

/-- The frame loop of formatStackTraceJson (lines 117-145): arguments
are the remaining frames, the loop index i and the running offset;
result is the emitted snprintf calls and the final offset. Each
iteration runs only while offset < bufferSize - 256 (size_t compare);
for i > 0 it first emits a comma; the offset advances by the full
untruncated length snprintf returns. -/
def formatFrames (dl : Nat → Option DlInfo) (bufferSize : Nat) :
    List Nat → Nat → Nat → List WriteOp × Nat
  | [], _, offset => ([], offset)
  | addr :: rest, i, offset =>
    if offset < sizeSub bufferSize 256 then
      let withComma :=
        if 0 < i then
          ([WriteOp.mk offset (sizeSub bufferSize offset) [',']], offset + 1)
        else (([] : List WriteOp), offset)
      let entry := frameEntryText dl i addr
      let w := WriteOp.mk withComma.2 (sizeSub bufferSize withComma.2) entry
      let next := formatFrames dl bufferSize rest (i + 1) (withComma.2 + entry.length)
      (withComma.1 ++ w :: next.1, next.2)
    else ([], offset)

/-- formatStackTraceJson (lines 113-148) as the sequence of snprintf
calls it performs: the opening bracket at offset 0, the frame loop
starting at offset 1, and the closing bracket at the final offset with
size argument bufferSize - offset in size_t arithmetic. -/
def formatStackTraceJson (dl : Nat → Option DlInfo) (bufferSize : Nat)
    (frames : List Nat) : List WriteOp :=
  let w0 := WriteOp.mk 0 (sizeSub bufferSize 0) ['[']
  let body := formatFrames dl bufferSize frames 0 1
  w0 :: body.1 ++ [WriteOp.mk body.2 (sizeSub bufferSize body.2) [']']]

/-- The unwind loop: _Unwind_Backtrace feeding unwindCallback (lines
91-103) over the platform's pc chain. A zero pc is skipped; a nonzero pc
with the buffer already full stops the walk (_URC_END_OF_STACK);
otherwise the pc is appended. acc is the filled prefix so far. -/
def unwindLoop (maxFrames : Nat) : List Nat → List Nat → List Nat
  | [], acc => acc
  | pc :: rest, acc =>
    if pc != 0 then
      if acc.length = maxFrames then acc
      else unwindLoop maxFrames rest (acc ++ [pc])
    else unwindLoop maxFrames rest acc

/-- captureStackTrace (lines 106-110): runs the unwind loop on a fresh
buffer and returns the filled prefix together with the count
state.current - buffer. -/
def captureStackTrace (chain : List Nat) (maxFrames : Nat) : List Nat × Nat :=
  let filled := unwindLoop maxFrames chain []
  (filled, filled.length)

/-- The top-level crash document of lines 174-191, with the stack-trace
buffer contents spliced in for %s. Literal braces are written with
hexadecimal escapes. -/
def crashJsonText (sig : Nat) (faultAddress : Nat) (threadId : Nat)
    (siCode : Int) (framesStr : List Char) : List Char :=
  ("\x7b\"signal\":").toList ++ natToDec sig
    ++ (",\"signalName\":\"").toList ++ signalName sig
    ++ ("\",\"signalDescription\":\"").toList ++ signalDescription sig
    ++ ("\",\"faultAddress\":\"").toList ++ ptrToHex faultAddress
    ++ ("\",\"threadId\":").toList ++ natToDec threadId
    ++ (",\"siCode\":").toList ++ intToDec siCode
    ++ (",\"frames\":").toList ++ framesStr
    ++ ("\x7d").toList

/-- The serialized crash document a handled delivery produces, the body
of lines 161-191: si_addr and si_code (a NULL info gives NULL and 0),
the captured stack serialised into the local 16384-byte buffer, and the
top-level document built in the 32768-byte static buffer, whose snprintf
truncates to 32767 bytes. Depends only on the delivery environment and
the signal number. -/
def handlerReport (env : CrashEnv) (sig : Nat) : List Char :=
  let faultAddress :=
    match env.siginfo with
    | some info => info.si_addr
    | none => 0
  let siCode : Int :=
    match env.siginfo with
    | some info => info.si_code
    | none => 0
  let captured := captureStackTrace env.unwindChain MAX_FRAMES
  let ops := formatStackTraceJson env.dladdr STACK_JSON_CAP captured.1
  let stackTraceJson := bufferCString STACK_JSON_CAP ops
  (crashJsonText sig faultAddress env.threadId siCode stackTraceJson).take
    (CRASH_JSON_CAP - 1)

/-- signalHandler (lines 151-206). Guard first: when isHandlingCrash is
already set it returns at once, with no state change and no events.
Otherwise it sets the flag, logs, builds the crash report, invokes the
callback when one is registered, restores previousHandlers[signal] as
the installed disposition of the delivered signal, and re-raises that
signal. -/
def signalHandler (env : CrashEnv) (sig : Nat) (s : EngineState) :
    EngineState × List Event :=
  if s.isHandlingCrash then (s, [])
  else
    let captured := captureStackTrace env.unwindChain MAX_FRAMES
    let report := handlerReport env sig
    let cbEvents :=
      match s.crashCallback with
      | some cb => [Event.callbackInvoked cb report]
      | none => []
    let s' : EngineState :=
      { s with
        isHandlingCrash := true
        stackFramesSaved := captured.1
        stackFrameCount := captured.2
        crashJsonBuf := report
        osDisposition := fun n =>
          if n = sig then s.previousHandlers sig else s.osDisposition n }
    (s', Event.logCaughtSignal sig :: cbEvents
      ++ [Event.sigactionRestore sig (s.previousHandlers sig), Event.raiseSignal sig])

/-- The installation loop of lines 223-236: for each signal in order,
sigaction(sig, &action, &previousHandlers[sig]). On success the kernel
stores the previous disposition into previousHandlers[sig] and installs
the engine handler; on failure neither table changes and the failure is
logged. -/
def installLoop (ienv : InitEnv) : List Nat → EngineState → EngineState × List Event
  | [], s => (s, [])
  | sig :: rest, s =>
    if ienv.installOk sig then
      let s' : EngineState :=
        { s with
          osDisposition := fun n =>
            if n = sig then Disposition.engineHandler else s.osDisposition n
          previousHandlers := fun n =>
            if n = sig then s.osDisposition sig else s.previousHandlers n }
      installLoop ienv rest s'
    else
      let next := installLoop ienv rest s
      (next.1, Event.logInstallFailed sig :: next.2)

/-- MoonForge_Android_InitializeCrashHandler (lines 214-249): a no-op
with a log line when already initialized; otherwise stores the callback,
runs the installation loop over kSignalsToHandle, allocates the
SIGSTKSZ-byte alternate stack and designates it with sigaltstack when
malloc succeeds, sets isInitialized and logs. -/
def MoonForge_Android_InitializeCrashHandler (ienv : InitEnv) (cb : Option Nat)
    (s : EngineState) : EngineState × List Event :=
  if s.isInitialized then (s, [Event.logAlreadyInitialized])
  else
    let s1 : EngineState := { s with crashCallback := cb }
    let installed := installLoop ienv kSignalsToHandle s1
    let withStack :=
      if ienv.mallocOk then
        ({ installed.1 with altStack := some SIGSTKSZ },
         [Event.allocAltStack SIGSTKSZ, Event.sigaltstackInstall SIGSTKSZ])
      else (installed.1, ([] : List Event))
    ({ withStack.1 with isInitialized := true },
     installed.2 ++ withStack.2 ++ [Event.logInitialized])

/-- The restoration loop of lines 257-260: sigaction(sig,
&previousHandlers[sig], NULL) for each handled signal in order. -/
def restoreLoop (prev : Nat → Disposition) : List Nat → (Nat → Disposition) → Nat → Disposition
  | [], os => os
  | sig :: rest, os =>
    restoreLoop prev rest (fun n => if n = sig then prev sig else os n)

/-- MoonForge_Android_ShutdownCrashHandler (lines 251-265): a no-op when
not initialized; otherwise restores previousHandlers[sig] for every
handled signal, clears the callback and the initialized flag, and logs. -/
def MoonForge_Android_ShutdownCrashHandler (s : EngineState) :
    EngineState × List Event :=
  if s.isInitialized then
    ({ s with
        osDisposition := restoreLoop s.previousHandlers kSignalsToHandle s.osDisposition
        crashCallback := none
        isInitialized := false },
     [Event.logShutdown])
  else (s, [])

/-- MoonForge_Android_IsInitialized (lines 267-269). -/
def MoonForge_Android_IsInitialized (s : EngineState) : Nat :=
  if s.isInitialized then 1 else 0

/-- MoonForge_Android_SetJavaVM (lines 210-212). -/
def MoonForge_Android_SetJavaVM (vm : Nat) (s : EngineState) : EngineState :=
  { s with javaVM := some vm }

/-- Kernel dispatch of one signal delivery: the engine's handler runs
only when it is the installed disposition for that signal; otherwise the
engine is uninvolved and observes nothing. -/
def deliverSignal (env : CrashEnv) (sig : Nat) (s : EngineState) :
    EngineState × List Event :=
  match s.osDisposition sig with
  | Disposition.engineHandler => signalHandler env sig s
  | Disposition.other _ => (s, [])

/-- The three engine operations a process can perform on this state. -/
inductive EngineOp where
  | opInit : InitEnv → Option Nat → EngineOp
  | opShutdown : EngineOp
  | opSignal : CrashEnv → Nat → EngineOp

/-- One engine operation as a state transformer. -/
def stepOp : EngineOp → EngineState → EngineState × List Event
  | EngineOp.opInit ienv cb, s => MoonForge_Android_InitializeCrashHandler ienv cb s
  | EngineOp.opShutdown, s => MoonForge_Android_ShutdownCrashHandler s
  | EngineOp.opSignal env sig, s => signalHandler env sig s

/-- A sequence of signal deliveries reaching the handler, with the
concatenated event trace. -/
def runSignals : List (CrashEnv × Nat) → EngineState → EngineState × List Event
  | [], s => (s, [])
  | d :: ds, s =>
    let r1 := signalHandler d.1 d.2 s
    let r2 := runSignals ds r1.1
    (r2.1, r1.2 ++ r2.2)

/-- Sample engine state for witnesses: freshly loaded process, distinct
foreign disposition per signal, a registered callback. -/
def sampleState : EngineState :=
  { osDisposition := fun n => Disposition.other n
    previousHandlers := fun _ => Disposition.other 0
    crashCallback := some 7
    isHandlingCrash := false
    isInitialized := false
    javaVM := none
    altStack := none
    stackFramesSaved := []
    stackFrameCount := 0
    crashJsonBuf := [] }

/-- Sample state that is already initialized. -/
def sampleInitializedState : EngineState :=
  { sampleState with isInitialized := true }

/-- Initialization environment where everything succeeds. -/
def okAllEnv : InitEnv := { installOk := fun _ => true, mallocOk := true }

/-- Initialization environment where installation fails for SIGBUS. -/
def failBusEnv : InitEnv := { installOk := fun sig => sig != SIGBUS, mallocOk := true }

/-- Minimal crash environment for witnesses. -/
def sampleCrashEnv : CrashEnv :=
  { unwindChain := []
    dladdr := fun _ => none
    siginfo := some { si_addr := 0, si_code := 1 }
    threadId := 42 }

/-- dladdr answer with a pathologically long (16384-byte) symbol name,
as an over-long C++ mangled name would produce. -/
def longSymbolInfo : DlInfo :=
  { dli_fname := some ("libfoo.so").toList
    dli_sname := some (List.replicate 16384 'a')
    dli_saddr := 4096 }

/-- dladdr table resolving only the address 4096, to longSymbolInfo. -/
def longSymbolDladdr : Nat → Option DlInfo :=
  fun a => if a = 4096 then some longSymbolInfo else none

/-- dladdr answer with an ordinary full path and symbol. -/
def sampleDlInfo : DlInfo :=
  { dli_fname := some ("/data/app/lib/arm64/libgame.so").toList
    dli_sname := some ("UpdatePhysics").toList
    dli_saddr := 4000 }

/-- dladdr table resolving only the address 4096, to sampleDlInfo. -/
def sampleDladdr : Nat → Option DlInfo :=
  fun a => if a = 4096 then some sampleDlInfo else none

/-- Recogniser for alternate-stack allocation events. -/
def isAllocEvent : Event → Bool
  | Event.allocAltStack _ => true
  | _ => false

theorem signalHandler_of_handling (env : CrashEnv) (sig : Nat) (s : EngineState)
    (h : s.isHandlingCrash = true) : signalHandler env sig s = (s, []) := by
  simp [signalHandler, h]

theorem signalHandler_flag (env : CrashEnv) (sig : Nat) (s : EngineState)
    (h : s.isHandlingCrash = false) :
    (signalHandler env sig s).1.isHandlingCrash = true := by
  simp [signalHandler, h]

theorem installLoop_preserves (ienv : InitEnv) (sigs : List Nat) (s : EngineState) :
    (installLoop ienv sigs s).1.crashCallback = s.crashCallback ∧
    (installLoop ienv sigs s).1.isHandlingCrash = s.isHandlingCrash ∧
    (installLoop ienv sigs s).1.isInitialized = s.isInitialized ∧
    (installLoop ienv sigs s).1.altStack = s.altStack := by
  induction sigs generalizing s with
  | nil => simp [installLoop]
  | cons sig rest ih =>
    by_cases h : ienv.installOk sig
    · simpa [installLoop, h] using ih _
    · simpa [installLoop, h] using ih s

theorem installLoop_osDisposition (ienv : InitEnv) (sigs : List Nat)
    (s : EngineState) (n : Nat) :
    (installLoop ienv sigs s).1.osDisposition n =
      if n ∈ sigs ∧ ienv.installOk n = true then Disposition.engineHandler
      else s.osDisposition n := by
  induction sigs generalizing s with
  | nil => simp [installLoop]
  | cons sig rest ih =>
    by_cases h : ienv.installOk sig
    · rw [installLoop, if_pos h, ih]
      by_cases hn : n = sig
      · subst hn
        simp [h]
      · by_cases hr : n ∈ rest <;> simp [hn, hr]
    · rw [installLoop, if_neg h]
      show (installLoop ienv rest s).1.osDisposition n = _
      rw [ih]
      by_cases hn : n = sig
      · subst hn
        simp [h, Bool.eq_false_iff.mp (by simpa using h)]
      · simp [hn]

theorem installLoop_previousHandlers (ienv : InitEnv) (sigs : List Nat)
    (s : EngineState) (n : Nat) (hnd : sigs.Nodup) :
    (installLoop ienv sigs s).1.previousHandlers n =
      if n ∈ sigs ∧ ienv.installOk n = true then s.osDisposition n
      else s.previousHandlers n := by
  induction sigs generalizing s with
  | nil => simp [installLoop]
  | cons sig rest ih =>
    have hsig : sig ∉ rest := (List.nodup_cons.mp hnd).1
    have hr : rest.Nodup := (List.nodup_cons.mp hnd).2
    by_cases h : ienv.installOk sig
    · rw [installLoop, if_pos h, ih _ hr]
      by_cases hn : n = sig
      · subst hn
        simp [h, hsig]
      · by_cases hin : n ∈ rest <;> simp [hn, hin]
    · rw [installLoop, if_neg h]
      show (installLoop ienv rest s).1.previousHandlers n = _
      rw [ih _ hr]
      by_cases hn : n = sig
      · subst hn
        simp [h, hsig]
      · simp [hn]

theorem installLoop_events_shape (ienv : InitEnv) (sigs : List Nat) (s : EngineState) :
    ∀ e ∈ (installLoop ienv sigs s).2,
      ∃ sig, sig ∈ sigs ∧ ienv.installOk sig = false ∧ e = Event.logInstallFailed sig := by
  induction sigs generalizing s with
  | nil => simp [installLoop]
  | cons sig rest ih =>
    by_cases h : ienv.installOk sig
    · rw [installLoop, if_pos h]
      intro e he
      obtain ⟨g, hg1, hg2, hg3⟩ := ih _ e he
      exact ⟨g, List.mem_cons_of_mem _ hg1, hg2, hg3⟩
    · rw [installLoop, if_neg h]
      intro e he
      rcases List.mem_cons.mp he with h1 | h1
      · exact ⟨sig, List.mem_cons_self .., by simpa using h, h1⟩
      · obtain ⟨g, hg1, hg2, hg3⟩ := ih s e h1
        exact ⟨g, List.mem_cons_of_mem _ hg1, hg2, hg3⟩

theorem installLoop_events_mem (ienv : InitEnv) (sigs : List Nat) (s : EngineState)
    (sig : Nat) (h1 : sig ∈ sigs) (h2 : ienv.installOk sig = false) :
    Event.logInstallFailed sig ∈ (installLoop ienv sigs s).2 := by
  induction sigs generalizing s with
  | nil => simp at h1
  | cons g rest ih =>
    by_cases h : ienv.installOk g
    · rw [installLoop, if_pos h]
      rcases List.mem_cons.mp h1 with he | he
      · subst he
        rw [h2] at h
        simp at h
      · exact ih _ he
    · rw [installLoop, if_neg h]
      rcases List.mem_cons.mp h1 with he | he
      · subst he
        exact List.mem_cons_self ..
      · exact List.mem_cons_of_mem _ (ih _ he)

theorem restoreLoop_eq (prev : Nat → Disposition) (sigs : List Nat)
    (os : Nat → Disposition) (n : Nat) :
    restoreLoop prev sigs os n = if n ∈ sigs then prev n else os n := by
  induction sigs generalizing os with
  | nil => simp [restoreLoop]
  | cons sig rest ih =>
    rw [restoreLoop, ih]
    by_cases h : n ∈ rest
    · simp [h]
    · by_cases h2 : n = sig <;> simp [h, h2]

theorem initialize_isHandlingCrash (ienv : InitEnv) (cb : Option Nat) (s : EngineState) :
    (MoonForge_Android_InitializeCrashHandler ienv cb s).1.isHandlingCrash
      = s.isHandlingCrash := by
  unfold MoonForge_Android_InitializeCrashHandler
  by_cases h : s.isInitialized
  · simp [h]
  · by_cases hm : ienv.mallocOk <;>
      simp [h, hm, (installLoop_preserves ienv kSignalsToHandle _).2.1]

theorem shutdown_isHandlingCrash (s : EngineState) :
    (MoonForge_Android_ShutdownCrashHandler s).1.isHandlingCrash = s.isHandlingCrash := by
  unfold MoonForge_Android_ShutdownCrashHandler
  by_cases h : s.isInitialized <;> simp [h]

theorem runSignals_of_handling (ds : List (CrashEnv × Nat)) (s : EngineState)
    (h : s.isHandlingCrash = true) : runSignals ds s = (s, []) := by
  induction ds with
  | nil => rfl
  | cons d rest ih => simp [runSignals, signalHandler_of_handling d.1 d.2 s h, ih]

/-- C1: the reentrancy flag, once set, is never cleared by any engine
operation; a delivery finding the flag set returns immediately with no
state change, no report and no events; a first delivery with the flag
clear and a registered callback invokes it; and any run of deliveries
from a clear-flag state is observationally just its first delivery. -/
theorem C1_reentrancy_oneshot :
    (∀ op s, s.isHandlingCrash = true → (stepOp op s).1.isHandlingCrash = true) ∧
    (∀ env sig s, s.isHandlingCrash = true → signalHandler env sig s = (s, [])) ∧
    (∀ env sig s cb, s.isHandlingCrash = false → s.crashCallback = some cb →
       ∃ report, Event.callbackInvoked cb report ∈ (signalHandler env sig s).2) ∧
    (∀ d ds s, s.isHandlingCrash = false →
       runSignals (d :: ds) s = signalHandler d.1 d.2 s) := by
  refine ⟨?_, signalHandler_of_handling, ?_, ?_⟩
  · intro op s h
    cases op with
    | opInit ienv cb =>
      simp only [stepOp]
      rw [initialize_isHandlingCrash]
      exact h
    | opShutdown =>
      simp only [stepOp]
      rw [shutdown_isHandlingCrash]
      exact h
    | opSignal env sig =>
      simp only [stepOp]
      rw [signalHandler_of_handling env sig s h]
      exact h
  · intro env sig s cb h hcb
    simp [signalHandler, h, hcb]
  · intro d ds s h
    have hflag := signalHandler_flag d.1 d.2 s h
    rw [runSignals]
    simp [runSignals_of_handling ds _ hflag]

/-- Witness for C1 at concrete inputs: a second delivery while the flag
is set is a complete no-op, the first delivery invokes the registered
callback, and a two-delivery run equals its first delivery alone. -/
theorem C1_reentrancy_oneshot_witness :
    signalHandler sampleCrashEnv SIGSEGV { sampleState with isHandlingCrash := true }
        = ({ sampleState with isHandlingCrash := true }, []) ∧
    (∃ report, Event.callbackInvoked 7 report
        ∈ (signalHandler sampleCrashEnv SIGSEGV sampleState).2) ∧
    runSignals [(sampleCrashEnv, SIGSEGV), (sampleCrashEnv, SIGABRT)] sampleState
        = signalHandler sampleCrashEnv SIGSEGV sampleState :=
  ⟨C1_reentrancy_oneshot.2.1 sampleCrashEnv SIGSEGV _ rfl,
   C1_reentrancy_oneshot.2.2.1 sampleCrashEnv SIGSEGV sampleState 7 rfl rfl,
   C1_reentrancy_oneshot.2.2.2 (sampleCrashEnv, SIGSEGV) [(sampleCrashEnv, SIGABRT)]
     sampleState rfl⟩

theorem unwindLoop_eq (m : Nat) (chain acc : List Nat) (h : acc.length ≤ m) :
    unwindLoop m chain acc
      = acc ++ (chain.filter (fun pc => pc != 0)).take (m - acc.length) := by
  induction chain generalizing acc with
  | nil => simp [unwindLoop]
  | cons pc rest ih =>
    by_cases hz : pc != 0
    · by_cases hf : acc.length = m
      · rw [unwindLoop, if_pos hz, if_pos hf]
        simp [hf]
      · have hlt : acc.length < m := lt_of_le_of_ne h hf
        rw [unwindLoop, if_pos hz, if_neg hf, ih (acc ++ [pc]) (by simp; omega)]
        have hm : m - acc.length = (m - (acc ++ [pc]).length) + 1 := by
          simp
          omega
        rw [List.filter_cons, if_pos hz, hm, List.take_succ_cons, List.append_assoc]
        rfl
    · rw [unwindLoop, if_neg hz, ih acc h, List.filter_cons, if_neg hz]

/-- C3: the unwinder writes the nonzero return addresses of the platform
chain in order (innermost first) into the caller's buffer, never beyond
maxFrames entries, returns the length of the filled prefix, and a chain
deeper than MAX_FRAMES yields a count of exactly MAX_FRAMES. -/
theorem C3_unwinder_bounded :
    (∀ chain maxFrames,
       (captureStackTrace chain maxFrames).1
           = (chain.filter (fun pc => pc != 0)).take maxFrames ∧
       (captureStackTrace chain maxFrames).2
           = (captureStackTrace chain maxFrames).1.length ∧
       (captureStackTrace chain maxFrames).2 ≤ maxFrames) ∧
    (∀ chain, MAX_FRAMES < (chain.filter (fun pc => pc != 0)).length →
       (captureStackTrace chain MAX_FRAMES).2 = MAX_FRAMES) := by
  have key : ∀ chain maxFrames, (captureStackTrace chain maxFrames).1
      = (chain.filter (fun pc => pc != 0)).take maxFrames := by
    intro chain maxFrames
    show unwindLoop maxFrames chain [] = _
    rw [unwindLoop_eq maxFrames chain [] (by simp)]
    simp
  refine ⟨fun chain maxFrames => ⟨key chain maxFrames, rfl, ?_⟩, fun chain h => ?_⟩
  · show (captureStackTrace chain maxFrames).1.length ≤ maxFrames
    rw [key]
    simp
  · show (captureStackTrace chain MAX_FRAMES).1.length = MAX_FRAMES
    rw [key]
    simp
    omega

set_option maxRecDepth 4000 in
/-- Witness for C3: a 130-deep chain of nonzero addresses fills exactly
MAX_FRAMES = 128 frames. -/
theorem C3_unwinder_bounded_witness :
    MAX_FRAMES < ((List.replicate 130 1).filter (fun pc => pc != 0)).length ∧
    (captureStackTrace (List.replicate 130 1) MAX_FRAMES).2 = MAX_FRAMES :=
  ⟨by decide, C3_unwinder_bounded.2 (List.replicate 130 1) (by decide)⟩

/-- C5: a second initialization without an intervening shutdown returns
the state completely unchanged and emits only the already-initialized
log line. -/
theorem C5_init_idempotent :
    ∀ ienv cb s, s.isInitialized = true →
      MoonForge_Android_InitializeCrashHandler ienv cb s
        = (s, [Event.logAlreadyInitialized]) := by
  intro ienv cb s h
  simp [MoonForge_Android_InitializeCrashHandler, h]

/-- Witness for C5 at a concrete initialized state. -/
theorem C5_init_idempotent_witness :
    MoonForge_Android_InitializeCrashHandler okAllEnv (some 5) sampleInitializedState
      = (sampleInitializedState, [Event.logAlreadyInitialized]) :=
  C5_init_idempotent okAllEnv (some 5) sampleInitializedState rfl

theorem kSignalsToHandle_nodup : kSignalsToHandle.Nodup := by decide

theorem installLoop_crashCallback (ienv : InitEnv) (sigs : List Nat) (s : EngineState) :
    (installLoop ienv sigs s).1.crashCallback = s.crashCallback :=
  (installLoop_preserves ienv sigs s).1

theorem installLoop_previousHandlers_handled (ienv : InitEnv) (s : EngineState) (n : Nat) :
    (installLoop ienv kSignalsToHandle s).1.previousHandlers n =
      if n ∈ kSignalsToHandle ∧ ienv.installOk n = true then s.osDisposition n
      else s.previousHandlers n :=
  installLoop_previousHandlers ienv kSignalsToHandle s n kSignalsToHandle_nodup

theorem initialize_fields (ienv : InitEnv) (cb : Option Nat) (s : EngineState)
    (h : s.isInitialized = false) (n : Nat) :
    (MoonForge_Android_InitializeCrashHandler ienv cb s).1.previousHandlers n
        = (if n ∈ kSignalsToHandle ∧ ienv.installOk n = true then s.osDisposition n
           else s.previousHandlers n) ∧
    (MoonForge_Android_InitializeCrashHandler ienv cb s).1.osDisposition n
        = (if n ∈ kSignalsToHandle ∧ ienv.installOk n = true then Disposition.engineHandler
           else s.osDisposition n) ∧
    (MoonForge_Android_InitializeCrashHandler ienv cb s).1.isInitialized = true ∧
    (MoonForge_Android_InitializeCrashHandler ienv cb s).1.crashCallback = cb := by
  unfold MoonForge_Android_InitializeCrashHandler
  by_cases hm : ienv.mallocOk <;>
    simp [h, hm, installLoop_previousHandlers_handled, installLoop_osDisposition,
      installLoop_crashCallback]

theorem signalHandler_no_callback (env : CrashEnv) (sig : Nat) (s : EngineState)
    (h : s.crashCallback = none) :
    ∀ cb report, Event.callbackInvoked cb report ∉ (signalHandler env sig s).2 := by
  intro cb report
  by_cases hflag : s.isHandlingCrash = true
  · simp [signalHandler, hflag]
  · simp [signalHandler, hflag, h]

/-- C4: a guard-passing delivery restores previousHandlers[signal] as
the installed disposition for the delivered signal number and then
re-raises that signal as its final two actions; composed with
initialization, the disposition reinstated is exactly the one the
kernel reported at install time for that signal. -/
theorem C4_restore_and_reraise :
    (∀ env sig s, s.isHandlingCrash = false →
       (signalHandler env sig s).1.osDisposition sig = s.previousHandlers sig ∧
       ∃ pre, (signalHandler env sig s).2
         = pre ++ [Event.sigactionRestore sig (s.previousHandlers sig),
                   Event.raiseSignal sig]) ∧
    (∀ s0 ienv cb env sig, sig ∈ kSignalsToHandle → ienv.installOk sig = true →
       s0.isInitialized = false → s0.isHandlingCrash = false →
       (signalHandler env sig
           (MoonForge_Android_InitializeCrashHandler ienv cb s0).1).1.osDisposition sig
         = s0.osDisposition sig ∧
       ∃ pre, (signalHandler env sig
           (MoonForge_Android_InitializeCrashHandler ienv cb s0).1).2
         = pre ++ [Event.sigactionRestore sig (s0.osDisposition sig),
                   Event.raiseSignal sig]) := by
  have base : ∀ env sig s, s.isHandlingCrash = false →
      (signalHandler env sig s).1.osDisposition sig = s.previousHandlers sig ∧
      ∃ pre, (signalHandler env sig s).2
        = pre ++ [Event.sigactionRestore sig (s.previousHandlers sig),
                  Event.raiseSignal sig] := by
    intro env sig s h
    cases hc : s.crashCallback with
    | none =>
      exact ⟨by simp [signalHandler, h],
        ⟨[Event.logCaughtSignal sig], by simp [signalHandler, h, hc]⟩⟩
    | some cb =>
      exact ⟨by simp [signalHandler, h],
        ⟨[Event.logCaughtSignal sig, Event.callbackInvoked cb (handlerReport env sig)],
          by simp [signalHandler, h, hc]⟩⟩
  refine ⟨base, ?_⟩
  intro s0 ienv cb env sig hmem hok hinit hflag
  have hfields := initialize_fields ienv cb s0 hinit sig
  have hflag2 : (MoonForge_Android_InitializeCrashHandler ienv cb s0).1.isHandlingCrash
      = false := by
    rw [initialize_isHandlingCrash]
    exact hflag
  have hprev : (MoonForge_Android_InitializeCrashHandler ienv cb s0).1.previousHandlers sig
      = s0.osDisposition sig := by
    rw [hfields.1, if_pos ⟨hmem, hok⟩]
  obtain ⟨hos, pre, hev⟩ := base env sig _ hflag2
  exact ⟨by rw [hos, hprev], ⟨pre, by rw [hev, hprev]⟩⟩

/-- Witness for C4: initialize from a fresh state whose SIGSEGV
disposition is the foreign value Disposition.other 11; a SIGSEGV
delivery reinstates exactly that disposition and ends by re-raising
SIGSEGV. -/
theorem C4_restore_and_reraise_witness :
    (signalHandler sampleCrashEnv SIGSEGV
        (MoonForge_Android_InitializeCrashHandler okAllEnv (some 5)
          sampleState).1).1.osDisposition SIGSEGV
      = sampleState.osDisposition SIGSEGV ∧
    ∃ pre, (signalHandler sampleCrashEnv SIGSEGV
        (MoonForge_Android_InitializeCrashHandler okAllEnv (some 5) sampleState).1).2
      = pre ++ [Event.sigactionRestore SIGSEGV (sampleState.osDisposition SIGSEGV),
                Event.raiseSignal SIGSEGV] :=
  C4_restore_and_reraise.2 sampleState okAllEnv (some 5) sampleCrashEnv SIGSEGV
    (by decide) rfl rfl rfl

/-- C6: shutdown of an initialized engine restores the saved disposition
of every handled signal (touching no other signal), clears the callback
reference and the initialized flag, and a signal delivered afterwards
never invokes a callback; shutdown of a non-initialized engine is a
complete no-op. -/
theorem C6_shutdown_restores :
    (∀ s, s.isInitialized = true →
       (∀ sig, sig ∈ kSignalsToHandle →
          (MoonForge_Android_ShutdownCrashHandler s).1.osDisposition sig
            = s.previousHandlers sig) ∧
       (∀ sig, sig ∉ kSignalsToHandle →
          (MoonForge_Android_ShutdownCrashHandler s).1.osDisposition sig
            = s.osDisposition sig) ∧
       (MoonForge_Android_ShutdownCrashHandler s).1.crashCallback = none ∧
       (MoonForge_Android_ShutdownCrashHandler s).1.isInitialized = false ∧
       (∀ env sig cb report,
          Event.callbackInvoked cb report
            ∉ (deliverSignal env sig (MoonForge_Android_ShutdownCrashHandler s).1).2)) ∧
    (∀ s, s.isInitialized = false →
       MoonForge_Android_ShutdownCrashHandler s = (s, [])) := by
  constructor
  · intro s h
    have hstate : (MoonForge_Android_ShutdownCrashHandler s).1
        = { s with
            osDisposition := restoreLoop s.previousHandlers kSignalsToHandle s.osDisposition
            crashCallback := none
            isInitialized := false } := by
      simp [MoonForge_Android_ShutdownCrashHandler, h]
    refine ⟨?_, ?_, by rw [hstate], by rw [hstate], ?_⟩
    · intro sig hmem
      rw [hstate]
      show restoreLoop s.previousHandlers kSignalsToHandle s.osDisposition sig = _
      rw [restoreLoop_eq, if_pos hmem]
    · intro sig hmem
      rw [hstate]
      show restoreLoop s.previousHandlers kSignalsToHandle s.osDisposition sig = _
      rw [restoreLoop_eq, if_neg hmem]
    · intro env sig cb report
      unfold deliverSignal
      cases hdisp : (MoonForge_Android_ShutdownCrashHandler s).1.osDisposition sig with
      | engineHandler =>
        exact signalHandler_no_callback env sig _ (by rw [hstate]) cb report
      | other k => simp
  · intro s h
    simp [MoonForge_Android_ShutdownCrashHandler, h]

/-- Witness for C6: a concrete initialized state is shut down, SIGSEGV's
saved disposition is reinstated, the callback reference is cleared, a
later delivery invokes no callback, and shutdown of the fresh
non-initialized state is a no-op. -/
theorem C6_shutdown_restores_witness :
    (MoonForge_Android_ShutdownCrashHandler sampleInitializedState).1.osDisposition SIGSEGV
      = sampleInitializedState.previousHandlers SIGSEGV ∧
    (MoonForge_Android_ShutdownCrashHandler sampleInitializedState).1.crashCallback = none ∧
    Event.callbackInvoked 7 []
      ∉ (deliverSignal sampleCrashEnv SIGSEGV
          (MoonForge_Android_ShutdownCrashHandler sampleInitializedState).1).2 ∧
    MoonForge_Android_ShutdownCrashHandler sampleState = (sampleState, []) :=
  ⟨(C6_shutdown_restores.1 sampleInitializedState rfl).1 SIGSEGV (by decide),
   (C6_shutdown_restores.1 sampleInitializedState rfl).2.2.1,
   (C6_shutdown_restores.1 sampleInitializedState rfl).2.2.2.2 sampleCrashEnv SIGSEGV 7 [],
   C6_shutdown_restores.2 sampleState rfl⟩

/-- C8: initialization attempts every signal in the set even when some
installations fail; afterwards every signal whose installation succeeded
has the engine handler installed, each failed signal keeps its previous
disposition and is only logged, and the engine reports itself
initialized regardless. -/
theorem C8_partial_install :
    ∀ ienv cb s, s.isInitialized = false →
      (MoonForge_Android_InitializeCrashHandler ienv cb s).1.isInitialized = true ∧
      MoonForge_Android_IsInitialized
          (MoonForge_Android_InitializeCrashHandler ienv cb s).1 = 1 ∧
      (∀ sig, sig ∈ kSignalsToHandle → ienv.installOk sig = true →
         (MoonForge_Android_InitializeCrashHandler ienv cb s).1.osDisposition sig
           = Disposition.engineHandler) ∧
      (∀ sig, sig ∈ kSignalsToHandle → ienv.installOk sig = false →
         Event.logInstallFailed sig
             ∈ (MoonForge_Android_InitializeCrashHandler ienv cb s).2 ∧
         (MoonForge_Android_InitializeCrashHandler ienv cb s).1.osDisposition sig
           = s.osDisposition sig) := by
  intro ienv cb s h
  have hinit := initialize_fields ienv cb s h
  refine ⟨(hinit 0).2.2.1, ?_, ?_, ?_⟩
  · unfold MoonForge_Android_IsInitialized
    rw [(hinit 0).2.2.1]
    rfl
  · intro sig hmem hok
    rw [(hinit sig).2.1, if_pos ⟨hmem, hok⟩]
  · intro sig hmem hfail
    constructor
    · unfold MoonForge_Android_InitializeCrashHandler
      have hmm : ∀ t : EngineState,
          Event.logInstallFailed sig ∈ (installLoop ienv kSignalsToHandle t).2 :=
        fun t => installLoop_events_mem ienv kSignalsToHandle t sig hmem hfail
      by_cases hmal : ienv.mallocOk <;> simp [h, hmal, hmm]
    · rw [(hinit sig).2.1, if_neg (by simp [hfail])]

/-- Witness for C8: installation fails exactly for SIGBUS; SIGSEGV still
gets the engine handler, SIGBUS keeps its previous disposition and is
logged, and the engine reports itself initialized. -/
theorem C8_partial_install_witness :
    (MoonForge_Android_InitializeCrashHandler failBusEnv (some 5) sampleState).1.isInitialized
      = true ∧
    (MoonForge_Android_InitializeCrashHandler failBusEnv (some 5)
        sampleState).1.osDisposition SIGSEGV = Disposition.engineHandler ∧
    (Event.logInstallFailed SIGBUS
       ∈ (MoonForge_Android_InitializeCrashHandler failBusEnv (some 5) sampleState).2 ∧
     (MoonForge_Android_InitializeCrashHandler failBusEnv (some 5)
        sampleState).1.osDisposition SIGBUS = sampleState.osDisposition SIGBUS) :=
  ⟨(C8_partial_install failBusEnv (some 5) sampleState rfl).1,
   (C8_partial_install failBusEnv (some 5) sampleState rfl).2.2.1 SIGSEGV (by decide) rfl,
   (C8_partial_install failBusEnv (some 5) sampleState rfl).2.2.2 SIGBUS (by decide) rfl⟩

/-- C9: when the alternate-stack malloc succeeds, initialization records
exactly one allocated alternate-stack region, of the fixed size SIGSTKSZ
= 16384 bytes, and designates it with sigaltstack as the signal-handling
stack. -/
theorem C9_alt_stack :
    ∀ ienv cb s, s.isInitialized = false → ienv.mallocOk = true →
      (MoonForge_Android_InitializeCrashHandler ienv cb s).1.altStack = some SIGSTKSZ ∧
      ((MoonForge_Android_InitializeCrashHandler ienv cb s).2.filter isAllocEvent)
        = [Event.allocAltStack SIGSTKSZ] ∧
      Event.sigaltstackInstall SIGSTKSZ
        ∈ (MoonForge_Android_InitializeCrashHandler ienv cb s).2 ∧
      SIGSTKSZ = 16384 := by
  intro ienv cb s h hm
  have hnil : ∀ t : EngineState,
      (installLoop ienv kSignalsToHandle t).2.filter isAllocEvent = [] := by
    intro t
    rw [List.filter_eq_nil_iff]
    intro e he
    obtain ⟨g, _, _, hg⟩ := installLoop_events_shape ienv kSignalsToHandle t e he
    subst hg
    simp [isAllocEvent]
  refine ⟨?_, ?_, ?_, rfl⟩
  · unfold MoonForge_Android_InitializeCrashHandler
    simp [h, hm]
  · unfold MoonForge_Android_InitializeCrashHandler
    simp [h, hm, hnil, isAllocEvent]
  · unfold MoonForge_Android_InitializeCrashHandler
    simp [h, hm]

/-- Witness for C9 at a concrete fresh state with a succeeding malloc. -/
theorem C9_alt_stack_witness :
    (MoonForge_Android_InitializeCrashHandler okAllEnv (some 5) sampleState).1.altStack
      = some SIGSTKSZ ∧
    ((MoonForge_Android_InitializeCrashHandler okAllEnv (some 5) sampleState).2.filter
        isAllocEvent) = [Event.allocAltStack SIGSTKSZ] ∧
    Event.sigaltstackInstall SIGSTKSZ
      ∈ (MoonForge_Android_InitializeCrashHandler okAllEnv (some 5) sampleState).2 ∧
    SIGSTKSZ = 16384 :=
  C9_alt_stack okAllEnv (some 5) sampleState rfl rfl

/-- C10: the handled set is exactly SIGABRT, SIGBUS, SIGFPE, SIGILL,
SIGSEGV, SIGTRAP and SIGPIPE (signal numbers 6, 7, 8, 4, 11, 5, 13);
SIGPIPE is a member, and a first SIGPIPE delivery trips the one-shot
reentrancy guard; initialization installs the engine handler for every
handled signal whose installation succeeds and for no other signal. -/
theorem C10_signal_set :
    kSignalsToHandle = [SIGABRT, SIGBUS, SIGFPE, SIGILL, SIGSEGV, SIGTRAP, SIGPIPE] ∧
    kSignalsToHandle = [6, 7, 8, 4, 11, 5, 13] ∧
    kNumSignals = 7 ∧
    SIGPIPE ∈ kSignalsToHandle ∧
    (∀ env s, s.isHandlingCrash = false →
       (signalHandler env SIGPIPE s).1.isHandlingCrash = true) ∧
    (∀ ienv cb s sig, s.isInitialized = false → sig ∉ kSignalsToHandle →
       (MoonForge_Android_InitializeCrashHandler ienv cb s).1.osDisposition sig
         = s.osDisposition sig) ∧
    (∀ ienv cb s sig, s.isInitialized = false → sig ∈ kSignalsToHandle →
       ienv.installOk sig = true →
       (MoonForge_Android_InitializeCrashHandler ienv cb s).1.osDisposition sig
         = Disposition.engineHandler) := by
  refine ⟨rfl, by decide, by decide, by decide, ?_, ?_, ?_⟩
  · intro env s h
    exact signalHandler_flag env SIGPIPE s h
  · intro ienv cb s sig h hmem
    rw [(initialize_fields ienv cb s h sig).2.1, if_neg (by simp [hmem])]
  · intro ienv cb s sig h hmem hok
    rw [(initialize_fields ienv cb s h sig).2.1, if_pos ⟨hmem, hok⟩]

/-- Witness for C10: a first SIGPIPE delivery at a concrete fresh state
trips the guard; initializing installs the engine for SIGPIPE and leaves
signal 50 untouched. -/
theorem C10_signal_set_witness :
    (signalHandler sampleCrashEnv SIGPIPE sampleState).1.isHandlingCrash = true ∧
    (MoonForge_Android_InitializeCrashHandler okAllEnv (some 5)
        sampleState).1.osDisposition 50 = sampleState.osDisposition 50 ∧
    (MoonForge_Android_InitializeCrashHandler okAllEnv (some 5)
        sampleState).1.osDisposition SIGPIPE = Disposition.engineHandler :=
  ⟨C10_signal_set.2.2.2.2.1 sampleCrashEnv sampleState rfl,
   C10_signal_set.2.2.2.2.2.1 okAllEnv (some 5) sampleState 50 rfl (by decide),
   C10_signal_set.2.2.2.2.2.2 okAllEnv (some 5) sampleState SIGPIPE rfl (by decide) rfl⟩

theorem basenameOf_suffix (fn : List Char) : basenameOf fn <:+ fn := by
  show (fn.reverse.takeWhile (fun c => c != '/')).reverse <:+ fn
  conv_rhs => rw [← List.reverse_reverse fn]
  exact List.reverse_suffix.mpr ( List.takeWhile_prefix _)

theorem basenameOf_no_slash (fn : List Char) : '/' ∉ basenameOf fn := by
  unfold basenameOf
  intro hmem
  rw [List.mem_reverse] at hmem
  have hp := List.mem_takeWhile_imp hmem
  simp at hp

/-- C7: the resolver computes offset = address - symbol start exactly
when dladdr found a symbol name, takes the module from the final path
component of the binary path (a slash-free suffix of it), falls back to
the fixed sentinel for each field whose lookup failed, and resolution of
one address is unaffected by lookup failure at any other address. -/
theorem C7_resolver_fields :
    (∀ dl addr info sn, dl addr = some info → info.dli_sname = some sn →
       (resolveFrame dl addr).symbolNm = sn ∧
       (resolveFrame dl addr).symbolOffset
         = (addr : Int) - (info.dli_saddr : Int)) ∧
    (∀ dl addr info, dl addr = some info → info.dli_sname = none →
       (resolveFrame dl addr).symbolNm = sentinel ∧
       (resolveFrame dl addr).symbolOffset = 0) ∧
    (∀ dl addr info fn, dl addr = some info → info.dli_fname = some fn →
       (resolveFrame dl addr).moduleNm = basenameOf fn ∧
       basenameOf fn <:+ fn ∧ '/' ∉ basenameOf fn) ∧
    (∀ dl addr info, dl addr = some info → info.dli_fname = none →
       (resolveFrame dl addr).moduleNm = sentinel) ∧
    (∀ dl addr, dl addr = none → resolveFrame dl addr = ⟨sentinel, sentinel, 0⟩) ∧
    (∀ dl addr a2, a2 ≠ addr →
       resolveFrame (fun x => if x = addr then none else dl x) a2
         = resolveFrame dl a2) := by
  refine ⟨?_, ?_, ?_, ?_, ?_, ?_⟩
  · intro dl addr info sn h1 h2
    constructor <;> simp [resolveFrame, h1, h2]
  · intro dl addr info h1 h2
    constructor <;> simp [resolveFrame, h1, h2]
  · intro dl addr info fn h1 h2
    exact ⟨by simp [resolveFrame, h1, h2], basenameOf_suffix fn, basenameOf_no_slash fn⟩
  · intro dl addr info h1 h2
    simp [resolveFrame, h1, h2]
  · intro dl addr h1
    simp [resolveFrame, h1]
  · intro dl addr a2 h
    simp [resolveFrame, h]

/-- Witness for C7 at concrete inputs: a found symbol yields its name
and offset, the module is the slash-free base name of the full path, an
unresolvable address yields the sentinel record, and making one address
unresolvable leaves another address's resolution unchanged. -/
theorem C7_resolver_fields_witness :
    ((resolveFrame sampleDladdr 4096).symbolNm = ("UpdatePhysics").toList ∧
     (resolveFrame sampleDladdr 4096).symbolOffset
       = (4096 : Int) - ((sampleDlInfo.dli_saddr : Nat) : Int)) ∧
    ((resolveFrame sampleDladdr 4096).moduleNm
       = basenameOf (("/data/app/lib/arm64/libgame.so").toList) ∧
     basenameOf (("/data/app/lib/arm64/libgame.so").toList)
       <:+ ("/data/app/lib/arm64/libgame.so").toList ∧
     '/' ∉ basenameOf (("/data/app/lib/arm64/libgame.so").toList)) ∧
    resolveFrame sampleDladdr 5 = ⟨sentinel, sentinel, 0⟩ ∧
    resolveFrame (fun x => if x = 4096 then none else sampleDladdr x) 5
      = resolveFrame sampleDladdr 5 :=
  ⟨C7_resolver_fields.1 sampleDladdr 4096 sampleDlInfo (("UpdatePhysics").toList) rfl rfl,
   C7_resolver_fields.2.2.1 sampleDladdr 4096 sampleDlInfo
     (("/data/app/lib/arm64/libgame.so").toList) rfl rfl,
   C7_resolver_fields.2.2.2.2.1 sampleDladdr 5 rfl,
   C7_resolver_fields.2.2.2.2.2 sampleDladdr 4096 5 (by decide)⟩

theorem longSymbol_resolve :
    resolveFrame longSymbolDladdr 4096
      = ⟨List.replicate 16384 'a', ("libfoo.so").toList, 0⟩ := rfl

set_option maxRecDepth 2000 in
theorem longEntry_length :
    (frameEntryText longSymbolDladdr 0 4096).length = 16460 := by
  unfold frameEntryText
  rw [longSymbol_resolve]
  simp only [List.length_append, List.length_replicate]
  norm_num [natToDec, intToDec, ptrToHex]
  rfl

theorem formatSingle_oob (dl : Nat → Option DlInfo) (addr : Nat)
    (hE : STACK_JSON_CAP ≤ (frameEntryText dl 0 addr).length)
    (hE2 : (frameEntryText dl 0 addr).length + 1 < SIZE_T_BOUND) :
    (1 + (frameEntryText dl 0 addr).length, ']')
      ∈ oobStores STACK_JSON_CAP (formatStackTraceJson dl STACK_JSON_CAP [addr]) := by
  have hguard : (1 : Nat) < sizeSub STACK_JSON_CAP 256 := by decide
  have hloop : formatFrames dl STACK_JSON_CAP [addr] 0 1
      = ([WriteOp.mk 1 (sizeSub STACK_JSON_CAP 1) (frameEntryText dl 0 addr)],
         1 + (frameEntryText dl 0 addr).length) := by
    simp [formatFrames, hguard]
  have hops : formatStackTraceJson dl STACK_JSON_CAP [addr]
      = [WriteOp.mk 0 (sizeSub STACK_JSON_CAP 0) ['['],
         WriteOp.mk 1 (sizeSub STACK_JSON_CAP 1) (frameEntryText dl 0 addr),
         WriteOp.mk (1 + (frameEntryText dl 0 addr).length)
           (sizeSub STACK_JSON_CAP (1 + (frameEntryText dl 0 addr).length)) [']']] := by
    unfold formatStackTraceJson
    rw [hloop]
    rfl
  have hcap : STACK_JSON_CAP = 16384 := rfl
  have hbound : SIZE_T_BOUND = 18446744073709551616 := by norm_num [SIZE_T_BOUND]
  rw [hcap] at hE
  rw [hbound] at hE2
  have hEcap : ¬(1 + (frameEntryText dl 0 addr).length ≤ STACK_JSON_CAP) := by
    rw [hcap]
    omega
  have hszeq : sizeSub STACK_JSON_CAP (1 + (frameEntryText dl 0 addr).length)
      = STACK_JSON_CAP + SIZE_T_BOUND - (1 + (frameEntryText dl 0 addr).length) := by
    simp only [sizeSub]
    rw [if_neg hEcap]
  have hsz : 2 ≤ sizeSub STACK_JSON_CAP (1 + (frameEntryText dl 0 addr).length) := by
    rw [hszeq, hcap, hbound]
    omega
  have hstored : ∀ p sz : Nat, 2 ≤ sz →
      (WriteOp.mk p sz [']']).stored = [(p, ']'), (p + 1, nulChar)] := by
    intro p sz hsz2
    simp only [WriteOp.stored]
    rw [if_neg (by omega)]
    obtain ⟨k, hk⟩ : ∃ k, sz - 1 = k + 1 := ⟨sz - 2, by omega⟩
    rw [hk, List.take_succ_cons]
    simp [placeChars]
  rw [hops]
  unfold oobStores storesOf
  rw [List.mem_filter]
  constructor
  · simp only [List.foldr_cons, List.foldr_nil, List.append_nil, List.mem_append]
    right
    right
    rw [hstored _ _ hsz]
    simp
  · simp only [decide_eq_true_eq]
    rw [hcap]
    omega

/-- C2: the claim is FALSE of the code: with a frame whose resolved
symbol name is long enough, the C pattern offset += snprintf(...) makes
offset overshoot the untruncated length past the buffer capacity (the
guard offset < bufferSize - 256 only stops LATER frames), and the final
snprintf of the closing bracket then writes outside the 16384-byte
buffer (its size argument bufferSize - offset having wrapped around as
size_t). Concretely, with one frame whose symbol name is 16384 bytes,
the serializer stores bytes at positions 16461 and 16462 of a
16384-byte buffer, and the in-buffer text never receives the closing
bracket. -/
theorem C2_serializer_out_of_bounds :
    oobStores STACK_JSON_CAP
        (formatStackTraceJson longSymbolDladdr STACK_JSON_CAP [4096]) ≠ [] := by
  apply List.ne_nil_of_mem
  exact formatSingle_oob longSymbolDladdr 4096
    (by rw [longEntry_length]; decide)
    (by rw [longEntry_length]; norm_num [SIZE_T_BOUND])

end MoonForge
